import Mathlib

/-
Verification development for the pseudonema repository (trend discovery and
feed-scouting pipeline).  The Python sources `config.py`, `trend_engine.py`,
`scout_agent.py` and `main.py` are shallowly embedded below: pure logic is
translated to Lean functions, network / database / random effects become
explicit parameters (an `Except` outcome models "the call raised"), and the
Python runtime's relevant primitives (string containment, `random.sample`,
`dict` construction, stable `sorted`) are modelled by executable Lean
definitions.
-/

namespace Pseudonema

/- Generic modelling of Python string primitives. -/

/-- Does `n` occur as a leading segment of `h`?  Models comparing a needle
against the front of a haystack, used to model the Python substring test. -/
def seqStartsWith : List Char → List Char → Bool
  | [], _ => true
  | _ :: _, [] => false
  | a :: as, b :: bs => a == b && seqStartsWith as bs

/-- Does `n` occur contiguously somewhere inside `h`?  Together with
`seqStartsWith` this models Python's `needle in haystack` substring test. -/
def containsSeq (n : List Char) : List Char → Bool
  | [] => n.isEmpty
  | h :: t => seqStartsWith n (h :: t) || containsSeq n t

/-- Python's `needle in haystack` on strings (substring containment). -/
def pyIn (needle haystack : String) : Bool :=
  containsSeq needle.toList haystack.toList

/-- Python's `str.lower()` (modelled characterwise). -/
def strLower (s : String) : String :=
  String.mk (s.toList.map Char.toLower)

/-- Python `repr` of a plain string (no embedded quotes), as used when a
list of strings is interpolated into an f-string. -/
def pyReprStr (s : String) : String := "'" ++ s ++ "'"

/-- Python `str` of a list of strings, e.g. `['a', 'b']`. -/
def pyStrList (l : List String) : String :=
  "[" ++ String.intercalate ", " (l.map pyReprStr) ++ "]"

/-- Python `str` of an `Optional[List[str]]`: `None` prints as `None`. -/
def pyStrOptList : Option (List String) → String
  | none => "None"
  | some l => pyStrList l

/-- Python truthiness test for an `Optional[List[str]]` value
(`None` and `[]` are falsy). -/
def pyTruthyOptList : Option (List String) → Bool
  | none => false
  | some l => !l.isEmpty

/- config.py: data model (`RemoteSubcategory`, `RemoteCategory`) and the
`ConfigManager` policy state. -/

structure RemoteSubcategory where
  name : String
  topics : List String
  urls : List String

structure RemoteCategory where
  name : String
  subcategories : List RemoteSubcategory

/-- A YAML document value, as produced by `yaml.safe_load` (config.py:53).
Floats are not needed by the policy keys and are omitted. -/
inductive Yaml where
  | null
  | bool (b : Bool)
  | int (n : Int)
  | str (s : String)
  | list (xs : List Yaml)
  | map (kvs : List (String × Yaml))

/-- Python truthiness of a YAML value (`data or {}`, config.py:53). -/
def Yaml.truthy : Yaml → Bool
  | .null => false
  | .bool b => b
  | .int n => n != 0
  | .str s => s != ""
  | .list xs => !xs.isEmpty
  | .map kvs => !kvs.isEmpty

/-- Python `dict.get(key, default)` on a YAML mapping. -/
def yamlGet (kvs : List (String × Yaml)) (key : String) (dflt : Yaml) : Yaml :=
  match kvs.find? (fun kv => kv.fst == key) with
  | some kv => kv.snd
  | none => dflt

/-- The observable states of the policy file `policy.yaml` as seen by
`_load_policy` (config.py:49-63): the file may be absent
(`FileNotFoundError`), unparsable (`yaml.YAMLError`), or parse to a YAML
value. -/
inductive PolicyFile where
  | missing
  | yamlError
  | parsed (v : Yaml)

/-- The three policy fields of `ConfigManager`.  Python is dynamically
typed, so each field holds whatever YAML value the file supplied. -/
structure Policy where
  active_category : Yaml
  num_topics : Yaml
  num_trends : Yaml

/-- The defaults installed by `ConfigManager.__init__` (config.py:39-41)
and used as per-key fallbacks by `_load_policy`. -/
def defaultPolicy : Policy :=
  { active_category := .str "technology", num_topics := .int 2, num_trends := .int 6 }

/-- `ConfigManager._load_policy` (config.py:49-63).  The policy starts at
`defaultPolicy` (set in `__init__`); `FileNotFoundError` and
`yaml.YAMLError` are caught, leaving the defaults.  A parsed document is
replaced by `{}` when falsy (`data = yaml.safe_load(f) or {}`); the three
`data.get(...)` calls then require a mapping — on any other (truthy) value
Python raises `AttributeError`, which no `except` clause catches. -/
def load_policy (file : PolicyFile) : Except String Policy :=
  match file with
  | .missing => .ok defaultPolicy
  | .yamlError => .ok defaultPolicy
  | .parsed v =>
    let data := if v.truthy then v else .map []
    match data with
    | .map kvs =>
        .ok { active_category := yamlGet kvs "active_category" (.str "technology"),
              num_topics := yamlGet kvs "num_topics" (.int 2),
              num_trends := yamlGet kvs "num_trends" (.int 6) }
    | _ => .error "AttributeError"

/- config.py: `ConfigManager.get_trends` (config.py:90-120).  The two
random draws are made explicit: `random.choice` over the subcategories is
modelled by an index seed reduced modulo the list length, and
`random.sample` by `pySample` below, driven by a list of index draws. -/

/-- Model of `random.sample(population, k)` for `k ≤ len(population)`:
`k` selections without replacement; each step removes the element at the
position given by the next seed entry (reduced modulo the remaining
length). -/
def pySample : Nat → List String → List Nat → List String
  | 0, _, _ => []
  | _ + 1, [], _ => []
  | k + 1, a :: l, seed =>
      let i := seed.headD 0 % (a :: l).length
      (a :: l).getD i "" :: pySample k ((a :: l).eraseIdx i) seed.tail

/-- The `ConfigManager` state that `get_trends` reads: the policy fields
(as already-installed concrete values) and the remote taxonomy. -/
structure ConfigState where
  active_category : String
  num_topics : Nat
  num_trends : Nat
  remote_data : List RemoteCategory

/-- The subcategory picked by `random.choice(active_cat_data.subcategories)`
(config.py:104), with the random draw supplied as an index seed. -/
def chosenSubcat (cat : RemoteCategory) (seed : Nat) : RemoteSubcategory :=
  cat.subcategories.getD (seed % cat.subcategories.length) ⟨"", [], []⟩

/-- The topic list after the exclusion filter (config.py:110-111); the
filter runs only when `excluded_topics` is truthy. -/
def remainingTopics (subcat : RemoteSubcategory) (excluded : Option (List String)) : List String :=
  if pyTruthyOptList excluded then
    subcat.topics.filter (fun t => !(excluded.getD []).contains t)
  else subcat.topics

/-- The `ValueError` message raised when no topic survives the exclusion
filter (config.py:114). -/
def noTopicsMsg (subcatName : String) (excluded : Option (List String)) : String :=
  "No topics available in '" ++ subcatName ++ "' after excluding: " ++ pyStrOptList excluded

/-- `ConfigManager.get_trends` (config.py:90-120): `.error` models a raised
`ValueError`, `.ok` the returned 5-tuple `(num_trends, active_category,
subcategory name, sampled topics, urls)`. -/
def get_trends (st : ConfigState) (excluded : Option (List String))
    (subcatSeed : Nat) (sampleSeed : List Nat) :
    Except String (Nat × String × String × List String × List String) :=
  if st.remote_data.isEmpty then
    .error "ConfigManager has no remote data loaded. Did you call `await initialize()`?"
  else
    match st.remote_data.find? (fun cat => cat.name == st.active_category) with
    | none =>
        .error ("No data or subcategories found for active category '" ++ st.active_category ++ "'.")
    | some cat =>
      if cat.subcategories.isEmpty then
        .error ("No data or subcategories found for active category '" ++ st.active_category ++ "'.")
      else
        let subcat := chosenSubcat cat subcatSeed
        let available := remainingTopics subcat excluded
        if available.isEmpty then
          .error (noTopicsMsg subcat.name excluded)
        else
          let sampleSize := min st.num_topics available.length
          .ok (st.num_trends, st.active_category, subcat.name,
               pySample sampleSize available sampleSeed, subcat.urls)

/- trend_engine.py: data model (`LLMTrend`, and `Trend` / `ParentDetails`
imported from config.py) and `TrendEngine.fetch_and_generate_trends`. -/

structure ParentDetails where
  category : String
  subcategory : String
  topics : List String
  deriving DecidableEq

structure Trend where
  id : Option String
  name : String
  context : String
  parent_details : ParentDetails
  status : String
  deriving DecidableEq

structure LLMTrend where
  name : String
  context : String

/-- One Tavily search result, as read by `fetch_and_generate_trends`
(trend_engine.py:96-110).  The relevance score is modelled as a rational
number. -/
structure SearchResult where
  title : String
  url : String
  score : ℚ
  content : String

/-- Stable descending sort by relevance score:
`sorted(raw_results, key=lambda x: x.get('score', 0), reverse=True)`
(trend_engine.py:102).  Python's `sorted` is stable; with `reverse=True`
ties keep their original order.  Modelled by insertion sort that places an
element before the first strictly smaller-or-equal-scored one coming from
later in the input. -/
def insertDescByScore (x : SearchResult) : List SearchResult → List SearchResult
  | [] => [x]
  | y :: ys => if y.score ≤ x.score then x :: y :: ys else y :: insertDescByScore x ys

/-- The stable descending-by-score sort of the whole result list
(trend_engine.py:102). -/
def pySortDescByScore : List SearchResult → List SearchResult
  | [] => []
  | x :: xs => insertDescByScore x (pySortDescByScore xs)

/-- One ASCII digit character. -/
def digitChar (n : Nat) : Char := Char.ofNat (48 + n % 10)

/-- Exactly two decimal digits (zero padded), for `n < 100`. -/
def twoDigits (n : Nat) : String := String.mk [digitChar (n / 10 % 10), digitChar (n % 10)]

/-- Python's `f"{score:.2f}"` (trend_engine.py:109) on a rational score:
the value rounded to hundredths, printed with exactly two digits after the
decimal point.  (At exact ties Python's float formatting rounds half to
even; the tie-breaking direction is irrelevant to the properties proved
here.) -/
def fmt2 (q : ℚ) : String :=
  let n : Int := ⌊q * 100 + 1 / 2⌋
  let m := n.natAbs
  (if n < 0 then "-" else "") ++ toString (m / 100) ++ "." ++ twoDigits (m % 100)

/-- One numbered context block (trend_engine.py:106-110). -/
def formatBlock (i : Nat) (r : SearchResult) : String :=
  "### Source [" ++ toString i ++ "]\n" ++
  "- **Title:** " ++ r.title ++ "\n" ++
  "- **URL:** " ++ r.url ++ "\n" ++
  "- **Relevance Score:** " ++ fmt2 r.score ++ "\n" ++
  "- **Content:** " ++ r.content ++ "\n\n"

/-- The concatenated context handed to the LLM prompt
(trend_engine.py:104-112, before the final `.strip()`): the blocks of the
score-sorted results, numbered from 1. -/
def formattedContext (results : List SearchResult) : String :=
  String.join (((pySortDescByScore results).enumFrom 1).map (fun p => formatBlock p.fst p.snd))

/-- The `Trend` records built from the validated LLM output
(trend_engine.py:151-160): each `{name, context}` gets the shared
`parent_details` and the fixed initial status `"false"`, with no id yet. -/
def trendsFromLLM (parent : ParentDetails) (llm_trends : List LLMTrend) : List Trend :=
  llm_trends.map (fun t =>
    { id := none, name := t.name, context := t.context, parent_details := parent, status := "false" })

/-- `TrendEngine.fetch_and_generate_trends` (trend_engine.py:37-184).
External effects are explicit parameters: `tavilyOutcome` is the search
call (`.error` = the call raised), `llmOutcome` the Gemini call combined
with schema validation of its JSON (`.error` = the call raised or
`TypeAdapter.validate_json` failed), `dbOutcome` the batch insert of the
built trends (`.error` = the insert or row re-validation raised, `.ok rows`
= the store-returned rows `res.data`).  The second component of the result
records the formatted search context handed to the LLM (`none` when the
pipeline returned before reaching the LLM call); the function's list result
models the Python return value.  The Lean function is total: every failure
branch returns `[]`, mirroring the catch-all handlers in the source. -/
def fetch_and_generate_trends
    (tavilyOutcome : Except Unit (List SearchResult))
    (llmOutcome : Except Unit (List LLMTrend))
    (dbOutcome : Except Unit (List Trend))
    (category subcategory : String) (topics : List String) :
    List Trend × Option String :=
  let _parent : ParentDetails :=
    { category := category, subcategory := subcategory, topics := topics }
  match tavilyOutcome with
  | .error _ => ([], none)
  | .ok raw_results =>
    if raw_results.isEmpty then ([], none)
    else
      let ctx := formattedContext raw_results
      match llmOutcome with
      | .error _ => ([], some ctx)
      | .ok _llm_trends =>
        match dbOutcome with
        | .error _ => ([], some ctx)
        | .ok rows => (if rows.isEmpty then [] else rows, some ctx)

/- scout_agent.py: data model (`ScrapedArticle`, feed entries) and
`ScoutAgent`'s feed parsing and `run_scout` mission. -/

structure ScrapedArticle where
  source : String
  title : String
  url : String
  summary : String
  published_at : String
  deriving DecidableEq

/-- One parsed feed entry as read by `_parse_single_feed`
(scout_agent.py:117-119); the `entry.get` defaults (`"No Title"`, `""`)
are applied upstream of this record. -/
structure FeedEntry where
  title : String
  link : String
  summary : String

/-- `ScoutAgent._get_source_label` (scout_agent.py:82-97). -/
def get_source_label (category : String) : String :=
  if pyIn "reddit" category then "Reddit"
  else if pyIn "security" category then "Security"
  else if pyIn "ai" category || pyIn "ml" category then "AI/ML"
  else if pyIn "blog" category then "Blog"
  else if pyIn "open_source" category then "Open Source"
  else "News"

/-- The relevance filter of `_parse_single_feed` (scout_agent.py:121-123):
keep an entry iff the lowercased topic occurs as a substring of the
lowercased `title + " " + summary`. -/
def entryMatches (topic : String) (e : FeedEntry) : Bool :=
  pyIn (strLower topic) (strLower (e.title ++ " " ++ e.summary))

/-- The kept-entry enrichment and `ScrapedArticle` construction
(scout_agent.py:125-138).  `fetch` models `_fetch_full_text` — it returns
`""` on any failure (scout_agent.py:99-107) — and `now` the
`published_at` default timestamp. -/
def mkScoutArticle (fetch : String → String) (label now : String) (e : FeedEntry) :
    ScrapedArticle :=
  let summary_text :=
    if e.summary.length < 300 then
      let full_text := fetch e.link
      if full_text ≠ "" then full_text.take 3000
      else "Content unavailable. Original: " ++ e.summary
    else e.summary
  { source := label, title := e.title, url := e.link, summary := summary_text,
    published_at := now }

/-- The entry loop of `_parse_single_feed` (scout_agent.py:116-139),
translated with its `continue` as a conditional cons. -/
def parseEntriesLoop (fetch : String → String) (topic label now : String) :
    List FeedEntry → List ScrapedArticle
  | [] => []
  | e :: rest =>
    if !entryMatches topic e then parseEntriesLoop fetch topic label now rest
    else mkScoutArticle fetch label now e :: parseEntriesLoop fetch topic label now rest

/-- `ScoutAgent._parse_single_feed` (scout_agent.py:109-144) on a feed that
parsed to `entries`: only `entries[:5]` are inspected. -/
def parse_single_feed (fetch : String → String) (entries : List FeedEntry)
    (topic label now : String) : List ScrapedArticle :=
  parseEntriesLoop fetch topic label now (entries.take 5)

/-- The two fixed Reddit search feeds added by `run_scout`
(scout_agent.py:171-174). -/
def redditSearchUrls (topic : String) : List String :=
  ["https://www.reddit.com/r/technology/search.rss?q=" ++ topic ++ "&restrict_sr=1&sort=top&t=week",
   "https://www.reddit.com/search.rss?q=" ++ topic ++ "&sort=top&t=week"]

/-- The `(url, source label)` tasks fanned out by `run_scout`
(scout_agent.py:163-178): every feed of every registry category, then the
two Reddit search feeds. -/
def scoutTasks (feedConfig : List (String × List String)) (topic : String) :
    List (String × String) :=
  (feedConfig.flatMap (fun cu => cu.snd.map (fun u => (u, get_source_label cu.fst)))) ++
  (redditSearchUrls topic).map (fun u => (u, "Reddit Search"))

/-- The concatenation of all per-feed parse results (scout_agent.py:180-182);
`parse` models `_parse_single_feed` as a function of `(url, topic, label)`
(it is total: that method catches its own exceptions and returns a list). -/
def scoutCollected (feedConfig : List (String × List String)) (topic : String)
    (parse : String → String → String → List ScrapedArticle) : List ScrapedArticle :=
  (scoutTasks feedConfig topic).flatMap (fun ul => parse ul.fst topic ul.snd)

/-- The observable outcome of one `run_scout` call: `retval` is `.ok v` for
a normal return of `v` (the sentinel `0` or the session id) and `.error ()`
for an uncaught exception; the remaining fields record which feed URLs were
handed to the parser, which articles were collected, and whether the
`raw_news` batch insert was attempted. -/
structure ScoutResult where
  retval : Except Unit Int
  parsedFeeds : List String
  collected : List ScrapedArticle
  insertAttempted : Bool

/-- `ScoutAgent.run_scout` (scout_agent.py:146-201).  `feedConfig` is the
registry returned by `_load_feeds_from_remote` (that method never raises:
on any failure it returns the default empty registry).  `sessionInsert`
models the `research_sessions` insert (`.ok sid` yields `response.data[0]
['id']`); on `.error` the handler at scout_agent.py:155-157 returns the
sentinel `0` before any feed work.  `articleInsert` models the `raw_news`
batch insert (scout_agent.py:197), which the source does not wrap in any
`try`: its `.error` propagates out of `run_scout`. -/
def run_scout (feedConfig : List (String × List String)) (topic : String)
    (sessionInsert : Except Unit Int)
    (parse : String → String → String → List ScrapedArticle)
    (articleInsert : Except Unit Unit) : ScoutResult :=
  match sessionInsert with
  | .error _ =>
      { retval := .ok 0, parsedFeeds := [], collected := [], insertAttempted := false }
  | .ok session_id =>
    let tasks := scoutTasks feedConfig topic
    let collected := scoutCollected feedConfig topic parse
    if collected.isEmpty then
      { retval := .ok session_id, parsedFeeds := tasks.map Prod.fst,
        collected := [], insertAttempted := false }
    else
      match articleInsert with
      | .ok _ =>
          { retval := .ok session_id, parsedFeeds := tasks.map Prod.fst,
            collected := collected, insertAttempted := true }
      | .error _ =>
          { retval := .error (), parsedFeeds := tasks.map Prod.fst,
            collected := collected, insertAttempted := true }

/- main.py: the in-memory trend cache `_latest_trends` and the cache effect
of `trigger_trend_generation`. -/

/-- A Python `dict` built left to right (later bindings overwrite earlier
ones), modelled as the insertion list with last-match lookup. -/
def dictGet (m : List (String × Trend)) (k : String) : Option Trend :=
  (m.reverse.find? (fun kv => kv.fst == k)).map Prod.snd

/-- Python truthiness of an `Optional[str]` (`None` and `""` are falsy). -/
def pyTruthyOptStr : Option String → Bool
  | none => false
  | some s => s != ""

/-- The dict comprehension `{str(t.id): t for t in trends if t.id}`
(main.py:120): one binding per trend whose id is truthy — `if t.id` drops
both a missing id and an empty-string id. -/
def buildCache (trends : List Trend) : List (String × Trend) :=
  (trends.filter (fun t => pyTruthyOptStr t.id)).map (fun t => (t.id.getD "", t))

/-- The effect of one `trigger_trend_generation` run (main.py:97-131) on
the module-level cache `_latest_trends`.  `outcome` summarises the guarded
body: `.error ()` when `initialize`, `get_trends` or the awaited calls
raised (caught at main.py:129, leaving the cache untouched), `.ok trends`
when `fetch_and_generate_trends` returned `trends`.  The cache is
reassigned — wholesale, by a single assignment — only when `trends` is
non-empty. -/
def triggerTrendCacheStep (old : List (String × Trend))
    (outcome : Except Unit (List Trend)) : List (String × Trend) :=
  match outcome with
  | .error _ => old
  | .ok trends => if trends.isEmpty then old else buildCache trends

/- Helper lemmas about the Python substring model. -/

theorem seqStartsWith_self_append (n c : List Char) : seqStartsWith n (n ++ c) = true := by
  induction n with
  | nil => rfl
  | cons a as ih => simp [seqStartsWith, ih]

theorem containsSeq_self_append (n c : List Char) : containsSeq n (n ++ c) = true := by
  cases n with
  | nil =>
    cases c with
    | nil => rfl
    | cons h t => simp [containsSeq, seqStartsWith]
  | cons a as =>
    simp only [containsSeq, List.cons_append, Bool.or_eq_true]
    exact Or.inl (by simp [seqStartsWith, seqStartsWith_self_append])

theorem containsSeq_of_suffix_part (n : List Char) (a : Char) (t : List Char)
    (h : containsSeq n t = true) : containsSeq n (a :: t) = true := by
  simp [containsSeq, h]

theorem containsSeq_append_parts (pre n suf : List Char) :
    containsSeq n (pre ++ n ++ suf) = true := by
  induction pre with
  | nil => simpa using containsSeq_self_append n suf
  | cons a t ih => simpa using containsSeq_of_suffix_part n a (t ++ n ++ suf) ih

/-- If the haystack's character data decomposes around the needle's data,
the Python substring test succeeds. -/
theorem pyIn_of_decomp (needle haystack : String) (pre suf : List Char)
    (h : haystack.toList = pre ++ needle.toList ++ suf) : pyIn needle haystack = true := by
  rw [pyIn, h]
  exact containsSeq_append_parts pre needle.toList suf

/-- C4 counterexample.  The claim says the policy load never raises on a
malformed policy file; but a file whose well-formed YAML document is a
truthy non-mapping — here the one-element list `[1]` — flows past both
`except` clauses of `_load_policy` (config.py:60-63) into `data.get`,
which raises `AttributeError` on a Python `list`. -/
theorem c4_counterexample :
    load_policy (PolicyFile.parsed (Yaml.list [Yaml.int 1])) = Except.error "AttributeError" := rfl

/-- C4 (amended): `ConfigManager`'s policy load leaves the hard-coded
defaults `{active_category="technology", num_topics=2, num_trends=6}` and
only logs when the file is missing or fails YAML parsing; a falsy parsed
document (e.g. `safe_load` returning `None` for an empty file, coerced to
`{}` by the `or {}`) likewise yields the defaults; a parsed mapping
installs the file's values (with those defaults for absent keys);
however, when the file parses to a truthy non-mapping YAML document the
load raises `AttributeError` instead of keeping the defaults. -/
theorem c4_load_policy_behavior (file : PolicyFile) :
    (file = PolicyFile.missing → load_policy file = Except.ok defaultPolicy)
    ∧ (file = PolicyFile.yamlError → load_policy file = Except.ok defaultPolicy)
    ∧ (∀ v, file = PolicyFile.parsed v → v.truthy = false →
        load_policy file = Except.ok defaultPolicy)
    ∧ (∀ kvs, file = PolicyFile.parsed (Yaml.map kvs) →
        load_policy file = Except.ok
          { active_category := yamlGet kvs "active_category" (Yaml.str "technology"),
            num_topics := yamlGet kvs "num_topics" (Yaml.int 2),
            num_trends := yamlGet kvs "num_trends" (Yaml.int 6) })
    ∧ (∀ v, file = PolicyFile.parsed v → v.truthy = true →
        (∀ kvs, v ≠ Yaml.map kvs) → load_policy file = Except.error "AttributeError") := by
  refine ⟨fun h => by subst h; rfl, fun h => by subst h; rfl, ?_, ?_, ?_⟩
  · intro v h hf
    subst h
    simp [load_policy, hf, defaultPolicy, yamlGet]
  · intro kvs h
    subst h
    cases kvs with
    | nil => rfl
    | cons a t => rfl
  · intro v h htruthy hnotmap
    subst h
    cases v with
    | null => simp [Yaml.truthy] at htruthy
    | bool b =>
      cases b with
      | false => simp [Yaml.truthy] at htruthy
      | true => rfl
    | int n =>
      have hn : ¬ n = 0 := by simpa [Yaml.truthy] using htruthy
      simp [load_policy, Yaml.truthy, hn]
    | str s =>
      have hs : ¬ s = "" := by simpa [Yaml.truthy] using htruthy
      simp [load_policy, Yaml.truthy, hs]
    | list xs =>
      have hx : xs.isEmpty = false := by simpa [Yaml.truthy] using htruthy
      simp [load_policy, Yaml.truthy, hx]
    | map kvs => exact absurd rfl (hnotmap kvs)

/-- C4 witness: the amended behavior evaluated at one concrete file state
per branch. -/
theorem c4_witness :
    load_policy PolicyFile.missing = Except.ok defaultPolicy
    ∧ load_policy (PolicyFile.parsed Yaml.null) = Except.ok defaultPolicy
    ∧ load_policy (PolicyFile.parsed (Yaml.map [("num_topics", Yaml.int 4)])) =
        Except.ok { active_category := Yaml.str "technology",
                    num_topics := Yaml.int 4, num_trends := Yaml.int 6 }
    ∧ load_policy (PolicyFile.parsed (Yaml.str "oops")) = Except.error "AttributeError" := by
  refine ⟨(c4_load_policy_behavior PolicyFile.missing).1 rfl, ?_, ?_, ?_⟩
  · exact (c4_load_policy_behavior _).2.2.1 Yaml.null rfl rfl
  · exact ((c4_load_policy_behavior _).2.2.2.1 [("num_topics", Yaml.int 4)] rfl).trans (by rfl)
  · exact (c4_load_policy_behavior _).2.2.2.2 (Yaml.str "oops") rfl (by rfl)
      (fun kvs h => by cases h)

/-- C7: whenever the chosen subcategory's topic list becomes empty after
removing the excluded topics (in particular when it was empty to begin
with), `ConfigManager.get_trends` raises a `ValueError` whose message
names that subcategory and the exclusion set (config.py:113-114), and
returns no selection. -/
theorem c7_get_trends_exhausted (st : ConfigState) (excluded : Option (List String))
    (subcatSeed : Nat) (sampleSeed : List Nat) (cat : RemoteCategory)
    (hfind : st.remote_data.find? (fun c => c.name == st.active_category) = some cat)
    (hsub : cat.subcategories ≠ [])
    (hempty : remainingTopics (chosenSubcat cat subcatSeed) excluded = []) :
    get_trends st excluded subcatSeed sampleSeed =
      Except.error (noTopicsMsg (chosenSubcat cat subcatSeed).name excluded)
    ∧ pyIn (chosenSubcat cat subcatSeed).name
        (noTopicsMsg (chosenSubcat cat subcatSeed).name excluded) = true
    ∧ pyIn (pyStrOptList excluded)
        (noTopicsMsg (chosenSubcat cat subcatSeed).name excluded) = true
    ∧ ∀ v, get_trends st excluded subcatSeed sampleSeed ≠ Except.ok v := by
  have hne : st.remote_data ≠ [] := by
    intro h
    rw [h] at hfind
    simp at hfind
  have h1 : get_trends st excluded subcatSeed sampleSeed =
      Except.error (noTopicsMsg (chosenSubcat cat subcatSeed).name excluded) := by
    simp [get_trends, hfind, hempty, hne, hsub]
  refine ⟨h1, ?_, ?_, ?_⟩
  · apply pyIn_of_decomp _ _ "No topics available in '".toList
      ("' after excluding: ".toList ++ (pyStrOptList excluded).toList)
    simp [noTopicsMsg, String.toList, String.data_append]
  · apply pyIn_of_decomp _ _
      ("No topics available in '".toList ++ (chosenSubcat cat subcatSeed).name.toList ++
        "' after excluding: ".toList) []
    simp [noTopicsMsg, String.toList, String.data_append]
  · intro v h
    rw [h1] at h
    exact Except.noConfusion h

/-- C7 witness: one exhausted selection — the only subcategory has the
single topic `"t1"` and `"t1"` is excluded. -/
theorem c7_witness :
    get_trends ⟨"technology", 2, 6, [⟨"technology", [⟨"sub", ["t1"], []⟩]⟩]⟩
        (some ["t1"]) 0 [] =
      Except.error "No topics available in 'sub' after excluding: ['t1']"
    ∧ pyIn "sub" "No topics available in 'sub' after excluding: ['t1']" = true := by
  have h := c7_get_trends_exhausted
      ⟨"technology", 2, 6, [⟨"technology", [⟨"sub", ["t1"], []⟩]⟩]⟩ (some ["t1"]) 0 []
      ⟨"technology", [⟨"sub", ["t1"], []⟩]⟩ rfl (by simp) (by decide)
  have hmsg : noTopicsMsg (chosenSubcat ⟨"technology", [⟨"sub", ["t1"], []⟩]⟩ 0).name
      (some ["t1"]) = "No topics available in 'sub' after excluding: ['t1']" := by decide
  exact ⟨h.1.trans (congrArg Except.error hmsg), hmsg ▸ h.2.1⟩

/- Helper lemmas about the `random.sample` model. -/

theorem pySample_length : ∀ (k : Nat) (l : List String) (seed : List Nat),
    k ≤ l.length → (pySample k l seed).length = k := by
  intro k
  induction k with
  | zero => intro l seed _; rfl
  | succ k ih =>
    intro l seed hk
    cases l with
    | nil => simp at hk
    | cons a t =>
      have hi : ∀ x : Nat, x % (t.length + 1) < t.length + 1 :=
        fun x => Nat.mod_lt _ (by omega)
      have herase : (((a :: t).eraseIdx (seed.headD 0 % (a :: t).length))).length =
          (a :: t).length - 1 := by
        rw [List.length_eraseIdx]
        simp [hi]
      have hk' : k ≤ (((a :: t).eraseIdx (seed.headD 0 % (a :: t).length))).length := by
        rw [herase]
        simp only [List.length_cons] at hk ⊢
        omega
      show (((a :: t).getD (seed.headD 0 % (a :: t).length) "") ::
          pySample k ((a :: t).eraseIdx (seed.headD 0 % (a :: t).length)) seed.tail).length = k + 1
      rw [List.length_cons, ih _ _ hk']

theorem pySample_mem : ∀ (k : Nat) (l : List String) (seed : List Nat),
    ∀ t ∈ pySample k l seed, t ∈ l := by
  intro k
  induction k with
  | zero => intro l seed t ht; simp [pySample] at ht
  | succ k ih =>
    intro l seed t ht
    cases l with
    | nil => simp [pySample] at ht
    | cons a rest =>
      rw [pySample] at ht
      rcases List.mem_cons.mp ht with h | h
      · subst h
        have hi : seed.headD 0 % (a :: rest).length < (a :: rest).length :=
          Nat.mod_lt _ (by simp)
        rw [List.getD_eq_getElem _ _ hi]
        exact (a :: rest).getElem_mem hi
      · exact List.eraseIdx_subset _ _ (ih _ _ t h)

theorem getD_notMem_eraseIdx : ∀ (l : List String) (i : Nat), i < l.length → l.Nodup →
    l.getD i "" ∉ l.eraseIdx i := by
  intro l
  induction l with
  | nil => intro i hi; simp at hi
  | cons a t ih =>
    intro i hi hnd
    cases i with
    | zero =>
      simpa [List.eraseIdx] using (List.nodup_cons.mp hnd).1
    | succ j =>
      have hj : j < t.length := by simpa using hi
      have hnd' := List.nodup_cons.mp hnd
      intro hmem
      rw [List.eraseIdx_cons_succ] at hmem
      rcases List.mem_cons.mp hmem with h | h
      · have : t.getD j "" ∈ t := by
          rw [List.getD_eq_getElem _ _ hj]
          exact t.getElem_mem hj
        rw [List.getD_cons_succ] at h
        exact hnd'.1 (h ▸ this)
      · rw [List.getD_cons_succ] at h
        exact ih j hj hnd'.2 h

theorem pySample_nodup : ∀ (k : Nat) (l : List String) (seed : List Nat),
    l.Nodup → (pySample k l seed).Nodup := by
  intro k
  induction k with
  | zero => intro l seed _; simp [pySample]
  | succ k ih =>
    intro l seed hnd
    cases l with
    | nil => simp [pySample]
    | cons a rest =>
      rw [pySample]
      have hi : seed.headD 0 % (a :: rest).length < (a :: rest).length :=
        Nat.mod_lt _ (by simp)
      refine List.nodup_cons.mpr ⟨?_, ih _ _ (hnd.eraseIdx _)⟩
      intro hmem
      exact getD_notMem_eraseIdx (a :: rest) _ hi hnd (pySample_mem _ _ _ _ hmem)

/-- C3 counterexample.  The claim promises pairwise-distinct topics for
every taxonomy, but `random.sample` samples distinct positions, not
distinct strings: with the subcategory topic list `["a", "a"]` and
`num_topics = 2` a run of `get_trends` (with the random draws landing on
both positions) returns the selection `["a", "a"]`, which is not
pairwise distinct. -/
theorem c3_counterexample :
    get_trends ⟨"technology", 2, 6, [⟨"technology", [⟨"sub", ["a", "a"], []⟩]⟩]⟩
        none 0 [0, 0] =
      Except.ok (6, "technology", "sub", ["a", "a"], [])
    ∧ ¬ (["a", "a"] : List String).Nodup := ⟨rfl, by decide⟩

/-- C3 (amended): when the chosen subcategory's topics remaining after the
exclusion filter are non-empty, `get_trends` returns `num_trends`, the
active category name, the subcategory name, its URL list unfiltered, and a
selection of exactly `min(num_topics, |remaining topics|)` topics sampled
without replacement from the remaining topics — so none is excluded, and
they are pairwise distinct whenever the remaining topic list itself
contains no duplicate strings (the original claim's unconditional
distinctness fails for duplicated topic strings, see the
counterexample). -/
theorem c3_get_trends_selection (st : ConfigState) (excluded : Option (List String))
    (subcatSeed : Nat) (sampleSeed : List Nat) (cat : RemoteCategory)
    (hfind : st.remote_data.find? (fun c => c.name == st.active_category) = some cat)
    (hsub : cat.subcategories ≠ [])
    (hrem : remainingTopics (chosenSubcat cat subcatSeed) excluded ≠ []) :
    get_trends st excluded subcatSeed sampleSeed =
      Except.ok (st.num_trends, st.active_category, (chosenSubcat cat subcatSeed).name,
        pySample (min st.num_topics (remainingTopics (chosenSubcat cat subcatSeed) excluded).length)
          (remainingTopics (chosenSubcat cat subcatSeed) excluded) sampleSeed,
        (chosenSubcat cat subcatSeed).urls)
    ∧ (pySample (min st.num_topics (remainingTopics (chosenSubcat cat subcatSeed) excluded).length)
          (remainingTopics (chosenSubcat cat subcatSeed) excluded) sampleSeed).length =
        min st.num_topics (remainingTopics (chosenSubcat cat subcatSeed) excluded).length
    ∧ (∀ t ∈ pySample (min st.num_topics (remainingTopics (chosenSubcat cat subcatSeed) excluded).length)
          (remainingTopics (chosenSubcat cat subcatSeed) excluded) sampleSeed,
        t ∈ remainingTopics (chosenSubcat cat subcatSeed) excluded)
    ∧ (∀ t ∈ pySample (min st.num_topics (remainingTopics (chosenSubcat cat subcatSeed) excluded).length)
          (remainingTopics (chosenSubcat cat subcatSeed) excluded) sampleSeed,
        ∀ ex, excluded = some ex → t ∉ ex)
    ∧ ((remainingTopics (chosenSubcat cat subcatSeed) excluded).Nodup →
        (pySample (min st.num_topics (remainingTopics (chosenSubcat cat subcatSeed) excluded).length)
          (remainingTopics (chosenSubcat cat subcatSeed) excluded) sampleSeed).Nodup) := by
  have hne : st.remote_data ≠ [] := by
    intro h
    rw [h] at hfind
    simp at hfind
  refine ⟨?_, pySample_length _ _ _ (Nat.min_le_right _ _), fun t ht => pySample_mem _ _ _ t ht,
    ?_, fun hnd => pySample_nodup _ _ _ hnd⟩
  · simp [get_trends, hfind, hne, hsub, hrem]
  · intro t ht ex hex
    subst hex
    have htmem : t ∈ remainingTopics (chosenSubcat cat subcatSeed) (some ex) :=
      pySample_mem _ _ _ t ht
    cases ex with
    | nil => simp
    | cons e es =>
      simp [remainingTopics, pyTruthyOptList, List.mem_filter] at htmem
      simp only [List.mem_cons, not_or]
      exact htmem.2

/-- C3 witness: one concrete selection — topics `["t1", "t2", "t3"]`,
`"t2"` excluded, `num_topics = 2` — yielding the two distinct remaining
topics. -/
theorem c3_witness :
    get_trends ⟨"technology", 2, 6, [⟨"technology", [⟨"sub", ["t1", "t2", "t3"], ["u"]⟩]⟩]⟩
        (some ["t2"]) 0 [0] =
      Except.ok (6, "technology", "sub", ["t1", "t3"], ["u"]) := by
  have h := c3_get_trends_selection
      ⟨"technology", 2, 6, [⟨"technology", [⟨"sub", ["t1", "t2", "t3"], ["u"]⟩]⟩]⟩
      (some ["t2"]) 0 [0] ⟨"technology", [⟨"sub", ["t1", "t2", "t3"], ["u"]⟩]⟩
      rfl (by simp) (by decide)
  exact h.1.trans rfl

/-- C8: when the `research_sessions` insert raises, `run_scout` returns the
sentinel `0` — for every feed registry (including one produced by a failed
registry fetch, which yields the default empty registry), no feed is
parsed, no article is collected, and the article insert is never attempted
(scout_agent.py:151-157). -/
theorem c8_run_scout_session_failure (feedConfig : List (String × List String))
    (topic : String) (parse : String → String → String → List ScrapedArticle)
    (articleInsert : Except Unit Unit) :
    run_scout feedConfig topic (Except.error ()) parse articleInsert =
      { retval := Except.ok 0, parsedFeeds := [], collected := [],
        insertAttempted := false } := rfl

/-- C1 counterexample.  The claim says a failing `raw_news` batch insert is
caught and `run_scout` still returns the session id; but scout_agent.py:197
sits outside every `try` block, so with a successful session insert
(id 7), one feed contributing one matching article, and a failing batch
insert, `run_scout` raises (models as `.error`) instead of returning 7. -/
theorem c1_counterexample :
    (run_scout [("tech_news", ["http://feeds.example/a"])] "x" (Except.ok 7)
        (fun _ _ label =>
          [{ source := label, title := "x news", url := "u", summary := "s",
             published_at := "p" }])
        (Except.error ())).retval = Except.error ()
    ∧ (run_scout [("tech_news", ["http://feeds.example/a"])] "x" (Except.ok 7)
        (fun _ _ label =>
          [{ source := label, title := "x news", url := "u", summary := "s",
             published_at := "p" }])
        (Except.error ())).retval ≠ Except.ok 7 :=
  ⟨rfl, fun h => Except.noConfusion ((rfl : (run_scout [("tech_news", ["http://feeds.example/a"])]
      "x" (Except.ok 7) (fun _ _ label =>
        [{ source := label, title := "x news", url := "u", summary := "s",
           published_at := "p" }]) (Except.error ())).retval = Except.error ()).symm.trans h)⟩

/-- C1 (amended): when the research-session insert succeeds with id `sid`
and at least one article was collected, a failing `raw_news` batch insert
is NOT caught: the exception propagates out of `run_scout`, which
therefore returns neither `sid` nor the sentinel `0`
(scout_agent.py:184-201 contains no `try` around the insert). -/
theorem c1_insert_failure_propagates (feedConfig : List (String × List String))
    (topic : String) (sid : Int) (parse : String → String → String → List ScrapedArticle)
    (hcollected : scoutCollected feedConfig topic parse ≠ []) :
    (run_scout feedConfig topic (Except.ok sid) parse (Except.error ())).retval = Except.error ()
    ∧ (run_scout feedConfig topic (Except.ok sid) parse (Except.error ())).retval ≠ Except.ok sid
    ∧ (run_scout feedConfig topic (Except.ok sid) parse (Except.error ())).retval ≠ Except.ok 0 := by
  have h1 : (run_scout feedConfig topic (Except.ok sid) parse (Except.error ())).retval =
      Except.error () := by
    simp [run_scout, List.isEmpty_iff, hcollected]
  exact ⟨h1, fun h => Except.noConfusion (h1.symm.trans h),
    fun h => Except.noConfusion (h1.symm.trans h)⟩

/-- C1 witness: the amended behavior at the counterexample's concrete
mission. -/
theorem c1_witness :
    (run_scout [("tech_news", ["http://feeds.example/a"])] "x" (Except.ok 7)
        (fun _ _ label =>
          [{ source := label, title := "x news", url := "u", summary := "s",
             published_at := "p" }])
        (Except.error ())).retval ≠ Except.ok 7 :=
  (c1_insert_failure_propagates [("tech_news", ["http://feeds.example/a"])] "x" 7
    (fun _ _ label =>
      [{ source := label, title := "x news", url := "u", summary := "s",
         published_at := "p" }])
    (by decide)).2.1

/- Helper lemmas about the feed-entry loop. -/

theorem parseEntriesLoop_eq_filter_map (fetch : String → String) (topic label now : String) :
    ∀ entries : List FeedEntry,
      parseEntriesLoop fetch topic label now entries =
        (entries.filter (entryMatches topic)).map (mkScoutArticle fetch label now) := by
  intro entries
  induction entries with
  | nil => rfl
  | cons e rest ih =>
    rw [parseEntriesLoop]
    cases h : entryMatches topic e with
    | false => simp [h, List.filter_cons, ih]
    | true => simp [h, List.filter_cons, ih]

theorem string_take_length_le (s : String) (n : Nat) : (s.take n).length ≤ n := by
  rw [String.take_eq]
  rw [show (String.mk (s.1.take n)).length = (s.1.take n).length from rfl]
  rw [List.length_take]
  exact Nat.min_le_left _ _

/-- C5: per-feed parsing (scout_agent.py:109-144).  Only the first 5
entries are inspected; an entry is kept exactly when the topic occurs
case-insensitively in its title plus summary; a kept entry with a summary
under 300 characters has a full-text fetch attempted — on success the
stored summary is the first at-most-3000 characters of the extracted
text, on failure a content-unavailable marker plus the original summary —
while an entry with a summary of 300 characters or more keeps its summary
verbatim and its article does not depend on the fetcher at all. -/
theorem c5_parse_single_feed (fetch : String → String) (entries : List FeedEntry)
    (topic label now : String) :
    parse_single_feed fetch entries topic label now =
      parse_single_feed fetch (entries.take 5) topic label now
    ∧ parse_single_feed fetch entries topic label now =
        ((entries.take 5).filter
            (fun e => pyIn (strLower topic) (strLower (e.title ++ " " ++ e.summary)))).map
          (mkScoutArticle fetch label now)
    ∧ (∀ e : FeedEntry, 300 ≤ e.summary.length →
        (mkScoutArticle fetch label now e).summary = e.summary
        ∧ ∀ fetch2 : String → String,
            mkScoutArticle fetch2 label now e = mkScoutArticle fetch label now e)
    ∧ (∀ e : FeedEntry, e.summary.length < 300 → fetch e.link ≠ "" →
        (mkScoutArticle fetch label now e).summary = (fetch e.link).take 3000
        ∧ (mkScoutArticle fetch label now e).summary.length ≤ 3000)
    ∧ (∀ e : FeedEntry, e.summary.length < 300 → fetch e.link = "" →
        (mkScoutArticle fetch label now e).summary =
          "Content unavailable. Original: " ++ e.summary) := by
  refine ⟨?_, ?_, ?_, ?_, ?_⟩
  · rw [parse_single_feed, parse_single_feed, List.take_take]
    norm_num
  · rw [parse_single_feed, parseEntriesLoop_eq_filter_map]
    rfl
  · intro e he
    have hn : ¬ e.summary.length < 300 := Nat.not_lt.mpr he
    exact ⟨by simp [mkScoutArticle, hn], fun fetch2 => by simp [mkScoutArticle, hn]⟩
  · intro e he hf
    refine ⟨by simp [mkScoutArticle, he, hf], ?_⟩
    rw [show (mkScoutArticle fetch label now e).summary = (fetch e.link).take 3000 by
      simp [mkScoutArticle, he, hf]]
    exact string_take_length_le _ _
  · intro e he hf
    simp [mkScoutArticle, he, hf]

set_option maxRecDepth 4000 in
/-- C5 witness: a 5-character summary triggers the fetch (success path uses
the first 3000 extracted characters, here all of `"FULLTEXT"`; failure
path marks the content unavailable), while a 300-character summary is kept
verbatim. -/
theorem c5_witness :
    (mkScoutArticle (fun _ => "FULLTEXT") "News" "t" ⟨"Rust", "u", "short"⟩).summary = "FULLTEXT"
    ∧ (mkScoutArticle (fun _ => "") "News" "t" ⟨"Rust", "u", "short"⟩).summary =
        "Content unavailable. Original: short"
    ∧ (mkScoutArticle (fun _ => "FULLTEXT") "News" "t"
        ⟨"Rust", "u", String.mk (List.replicate 300 'a')⟩).summary =
        String.mk (List.replicate 300 'a')
    ∧ parse_single_feed (fun _ => "") [⟨"Python 4.0 released", "u", "no mention"⟩]
        "Rust" "News" "t" = [] := by
  refine ⟨?_, ?_, ?_, ?_⟩
  · have h := (c5_parse_single_feed (fun _ => "FULLTEXT") [] "Rust" "News" "t").2.2.2.1
        ⟨"Rust", "u", "short"⟩ (by decide) (by decide)
    exact h.1.trans (by rw [String.take_eq, List.take_of_length_le (by decide)])
  · exact (c5_parse_single_feed (fun _ => "") [] "Rust" "News" "t").2.2.2.2
      ⟨"Rust", "u", "short"⟩ (by decide) (by decide)
  · exact ((c5_parse_single_feed (fun _ => "FULLTEXT") [] "Rust" "News" "t").2.2.1
      ⟨"Rust", "u", String.mk (List.replicate 300 'a')⟩ (by decide)).1
  · exact ((c5_parse_single_feed (fun _ => "")
        [⟨"Python 4.0 released", "u", "no mention"⟩] "Rust" "News" "t").2.1).trans (by decide)

/-- C2: `fetch_and_generate_trends` never raises (the embedding is a total
function) and returns the empty trend list — so no `Trend` escapes to the
caller — whenever the search raises, the search returns zero results, the
LLM call raises or its output fails schema validation, the database batch
insert raises, or the insert returns no rows (trend_engine.py:89-99 and
162-184). -/
theorem c2_fetch_trends_empty_on_failure
    (tavilyOutcome : Except Unit (List SearchResult))
    (llmOutcome : Except Unit (List LLMTrend))
    (dbOutcome : Except Unit (List Trend))
    (category subcategory : String) (topics : List String)
    (h : tavilyOutcome = Except.error () ∨ tavilyOutcome = Except.ok []
       ∨ llmOutcome = Except.error () ∨ dbOutcome = Except.error ()
       ∨ dbOutcome = Except.ok []) :
    (fetch_and_generate_trends tavilyOutcome llmOutcome dbOutcome
        category subcategory topics).fst = [] := by
  rcases h with h | h | h | h | h
  · subst h; rfl
  · subst h; rfl
  · subst h
    cases tavilyOutcome with
    | error e => rfl
    | ok rs =>
      by_cases hrs : rs.isEmpty <;> simp [fetch_and_generate_trends, hrs]
  · subst h
    cases tavilyOutcome with
    | error e => rfl
    | ok rs =>
      cases llmOutcome with
      | error e => by_cases hrs : rs.isEmpty <;> simp [fetch_and_generate_trends, hrs]
      | ok ts => by_cases hrs : rs.isEmpty <;> simp [fetch_and_generate_trends, hrs]
  · subst h
    cases tavilyOutcome with
    | error e => rfl
    | ok rs =>
      cases llmOutcome with
      | error e => by_cases hrs : rs.isEmpty <;> simp [fetch_and_generate_trends, hrs]
      | ok ts => by_cases hrs : rs.isEmpty <;> simp [fetch_and_generate_trends, hrs]

/-- C2 witness: the five failure cases evaluated at concrete outcomes. -/
theorem c2_witness :
    (fetch_and_generate_trends (Except.error ()) (Except.ok []) (Except.ok []) "c" "s" []).fst = []
    ∧ (fetch_and_generate_trends (Except.ok []) (Except.ok []) (Except.ok []) "c" "s" []).fst = []
    ∧ (fetch_and_generate_trends (Except.ok [⟨"T", "u", 1, "body"⟩]) (Except.error ())
        (Except.ok []) "c" "s" []).fst = []
    ∧ (fetch_and_generate_trends (Except.ok [⟨"T", "u", 1, "body"⟩])
        (Except.ok [⟨"n", "ctx"⟩]) (Except.error ()) "c" "s" []).fst = []
    ∧ (fetch_and_generate_trends (Except.ok [⟨"T", "u", 1, "body"⟩])
        (Except.ok [⟨"n", "ctx"⟩]) (Except.ok []) "c" "s" []).fst = [] :=
  ⟨c2_fetch_trends_empty_on_failure _ _ _ "c" "s" [] (Or.inl rfl),
   c2_fetch_trends_empty_on_failure _ _ _ "c" "s" [] (Or.inr (Or.inl rfl)),
   c2_fetch_trends_empty_on_failure _ _ _ "c" "s" [] (Or.inr (Or.inr (Or.inl rfl))),
   c2_fetch_trends_empty_on_failure _ _ _ "c" "s" [] (Or.inr (Or.inr (Or.inr (Or.inl rfl)))),
   c2_fetch_trends_empty_on_failure _ _ _ "c" "s" [] (Or.inr (Or.inr (Or.inr (Or.inr rfl))))⟩

/- Helper lemmas about the stable descending sort and score formatting. -/

theorem mem_insertDescByScore (x : SearchResult) (l : List SearchResult) (z : SearchResult) :
    z ∈ insertDescByScore x l ↔ z = x ∨ z ∈ l := by
  induction l with
  | nil => simp [insertDescByScore]
  | cons y ys ih =>
    rw [insertDescByScore]
    by_cases h : y.score ≤ x.score
    · simp [h]
    · simp [h, ih]
      tauto

theorem pairwise_insertDescByScore (x : SearchResult) (l : List SearchResult)
    (hl : l.Pairwise (fun a b => b.score ≤ a.score)) :
    (insertDescByScore x l).Pairwise (fun a b => b.score ≤ a.score) := by
  induction l with
  | nil => simp [insertDescByScore]
  | cons y ys ih =>
    rw [insertDescByScore]
    rcases List.pairwise_cons.mp hl with ⟨hy, hys⟩
    by_cases h : y.score ≤ x.score
    · rw [if_pos h]
      refine List.pairwise_cons.mpr ⟨?_, hl⟩
      intro z hz
      rcases List.mem_cons.mp hz with rfl | hz'
      · exact h
      · exact le_trans (hy z hz') h
    · rw [if_neg h]
      refine List.pairwise_cons.mpr ⟨?_, ih hys⟩
      intro z hz
      rcases (mem_insertDescByScore x ys z).mp hz with rfl | hz'
      · exact le_of_lt (lt_of_not_le h)
      · exact hy z hz'

theorem sorted_pySortDescByScore (l : List SearchResult) :
    (pySortDescByScore l).Pairwise (fun a b => b.score ≤ a.score) := by
  induction l with
  | nil => simp [pySortDescByScore]
  | cons x xs ih => exact pairwise_insertDescByScore x _ ih

theorem filter_insertDescByScore (x : SearchResult) (l : List SearchResult) (s : ℚ) :
    (insertDescByScore x l).filter (fun r => decide (r.score = s)) =
      if x.score = s then x :: l.filter (fun r => decide (r.score = s))
      else l.filter (fun r => decide (r.score = s)) := by
  induction l with
  | nil =>
    by_cases hx : x.score = s <;> simp [insertDescByScore, List.filter, hx]
  | cons y ys ih =>
    rw [insertDescByScore]
    by_cases h : y.score ≤ x.score
    · rw [if_pos h]
      by_cases hx : x.score = s <;> simp [List.filter_cons, hx]
    · rw [if_neg h]
      rw [List.filter_cons, ih]
      by_cases hx : x.score = s
      · have hy : ¬ y.score = s := fun hy => h (le_of_eq (hy.trans hx.symm))
        simp [hx, hy, List.filter_cons]
      · by_cases hy : y.score = s <;> simp [hx, hy, List.filter_cons]

theorem stability_pySortDescByScore (l : List SearchResult) (s : ℚ) :
    (pySortDescByScore l).filter (fun r => decide (r.score = s)) =
      l.filter (fun r => decide (r.score = s)) := by
  induction l with
  | nil => rfl
  | cons x xs ih =>
    rw [pySortDescByScore, filter_insertDescByScore, ih, List.filter_cons]
    by_cases hx : x.score = s <;> simp [hx]

theorem digitChar_isDigit (n : Nat) : (digitChar n).isDigit = true := by
  show (Char.ofNat (48 + n % 10)).isDigit = true
  have h : n % 10 < 10 := Nat.mod_lt _ (by norm_num)
  set k := n % 10 with hk
  interval_cases k <;> decide

theorem fmt2_two_decimals (q : ℚ) :
    ∃ pre post : String, fmt2 q = pre ++ "." ++ post
      ∧ post.length = 2 ∧ post.toList.all Char.isDigit = true := by
  refine ⟨(if (⌊q * 100 + 1 / 2⌋ : Int) < 0 then "-" else "") ++
      toString ((⌊q * 100 + 1 / 2⌋ : Int).natAbs / 100),
    twoDigits ((⌊q * 100 + 1 / 2⌋ : Int).natAbs % 100), rfl, rfl, ?_⟩
  simp [twoDigits, digitChar_isDigit]

/-- C6: the search results formatted into the LLM prompt context appear in
non-increasing relevance-score order; the sort is stable (results with
equal scores keep their input order, stated as preservation of every
equal-score fiber); every score renders with exactly two digits after the
decimal point; and for input scores `[0.3, 0.9, 0.5]` the formatted blocks
come out in score order `[0.9, 0.5, 0.3]` (trend_engine.py:101-112). -/
theorem c6_prompt_ordering (results : List SearchResult) (s q : ℚ) :
    (pySortDescByScore results).Pairwise (fun a b => b.score ≤ a.score)
    ∧ (pySortDescByScore results).filter (fun r => decide (r.score = s)) =
        results.filter (fun r => decide (r.score = s))
    ∧ (∃ pre post : String, fmt2 q = pre ++ "." ++ post ∧ post.length = 2
        ∧ post.toList.all Char.isDigit = true)
    ∧ pySortDescByScore
        [⟨"A", "a", 3/10, ""⟩, ⟨"B", "b", 9/10, ""⟩, ⟨"C", "c", 5/10, ""⟩] =
        [⟨"B", "b", 9/10, ""⟩, ⟨"C", "c", 5/10, ""⟩, ⟨"A", "a", 3/10, ""⟩]
    ∧ formattedContext
        [⟨"A", "a", 3/10, ""⟩, ⟨"B", "b", 9/10, ""⟩, ⟨"C", "c", 5/10, ""⟩] =
        String.join [formatBlock 1 ⟨"B", "b", 9/10, ""⟩,
          formatBlock 2 ⟨"C", "c", 5/10, ""⟩, formatBlock 3 ⟨"A", "a", 3/10, ""⟩]
    ∧ fmt2 (9/10) = "0.90" ∧ fmt2 (5/10) = "0.50" ∧ fmt2 (3/10) = "0.30" := by
  have hsort : pySortDescByScore
      [⟨"A", "a", 3/10, ""⟩, ⟨"B", "b", 9/10, ""⟩, ⟨"C", "c", 5/10, ""⟩] =
      ([⟨"B", "b", 9/10, ""⟩, ⟨"C", "c", 5/10, ""⟩, ⟨"A", "a", 3/10, ""⟩] :
        List SearchResult) := by
    norm_num [pySortDescByScore, insertDescByScore]
  refine ⟨sorted_pySortDescByScore results, stability_pySortDescByScore results s,
    fmt2_two_decimals q, hsort, ?_, ?_, ?_, ?_⟩
  · rw [formattedContext, hsort]
    rfl
  · norm_num [fmt2]
    decide
  · norm_num [fmt2]
    decide
  · norm_num [fmt2]
    decide

/- Helper lemmas about the trend-cache dictionary. -/

theorem dictGet_buildCache_sound (trends : List Trend) (k : String) (t : Trend)
    (h : dictGet (buildCache trends) k = some t) :
    t ∈ trends ∧ t.id = some k ∧ k ≠ "" := by
  rw [dictGet] at h
  cases hf : (buildCache trends).reverse.find? (fun kv => kv.fst == k) with
  | none => rw [hf] at h; simp at h
  | some kv =>
    rw [hf] at h
    have hsnd : kv.snd = t := by simpa using h
    have hpred := List.find?_some hf
    have hkv : kv ∈ buildCache trends := List.mem_reverse.mp (List.mem_of_find?_eq_some hf)
    rw [buildCache] at hkv
    obtain ⟨t', ht'filter, hkveq⟩ := List.mem_map.mp hkv
    obtain ⟨ht'mem, ht'some⟩ := List.mem_filter.mp ht'filter
    have hfst : t'.id.getD "" = k := by
      rw [← hkveq] at hpred
      simpa using hpred
    have hsnd' : t' = t := by
      rw [← hkveq] at hsnd
      simpa using hsnd
    subst hsnd'
    cases hid : t'.id with
    | none => rw [hid] at ht'some; simp [pyTruthyOptStr] at ht'some
    | some v =>
      rw [hid] at hfst ht'some
      simp at hfst
      have hv : v ≠ "" := by simpa [pyTruthyOptStr] using ht'some
      exact ⟨ht'mem, congrArg some hfst, hfst ▸ hv⟩

theorem dictGet_buildCache_isSome (trends : List Trend) (k : String) :
    (dictGet (buildCache trends) k).isSome = true ↔
      ∃ t ∈ trends, t.id = some k ∧ k ≠ "" := by
  constructor
  · intro h
    obtain ⟨t, ht⟩ := Option.isSome_iff_exists.mp h
    exact ⟨t, (dictGet_buildCache_sound trends k t ht).1,
      (dictGet_buildCache_sound trends k t ht).2⟩
  · rintro ⟨t, htmem, hid, hk⟩
    rw [dictGet]
    have hfind : ((buildCache trends).reverse.find? (fun kv => kv.fst == k)).isSome = true := by
      rw [List.find?_isSome]
      refine ⟨(t.id.getD "", t), ?_, ?_⟩
      · rw [List.mem_reverse, buildCache]
        refine List.mem_map.mpr ⟨t, List.mem_filter.mpr ⟨htmem, ?_⟩, rfl⟩
        rw [hid]
        simpa [pyTruthyOptStr] using hk
      · rw [hid]
        simp
    obtain ⟨kv, hkv⟩ := Option.isSome_iff_exists.mp hfind
    rw [hkv]
    rfl

/-- C9: on a run where `fetch_and_generate_trends` returns a non-empty
trend list, `trigger_trend_generation` replaces the cache wholesale by a
single assignment of the new mapping (main.py:118-120): the resulting
cache equals the mapping built from exactly the new trends with a truthy
id (`if t.id` drops both a missing and an empty-string id), does not
depend on the previous cache in any way (no old entry survives), every
lookup hit returns one of the new trends under its own (non-empty) id,
and a key is present exactly when some new trend carries that id as a
truthy value — so any observer sees the one complete new mapping (the
transition is a single state change; the source's single dict assignment
has no intermediate state). -/
theorem c9_cache_wholesale_replacement (old : List (String × Trend)) (trends : List Trend)
    (hne : trends ≠ []) :
    triggerTrendCacheStep old (Except.ok trends) = buildCache trends
    ∧ (∀ old2, triggerTrendCacheStep old2 (Except.ok trends) =
        triggerTrendCacheStep old (Except.ok trends))
    ∧ (∀ k t, dictGet (triggerTrendCacheStep old (Except.ok trends)) k = some t →
        t ∈ trends ∧ t.id = some k ∧ k ≠ "")
    ∧ (∀ k, (dictGet (triggerTrendCacheStep old (Except.ok trends)) k).isSome = true ↔
        ∃ t ∈ trends, t.id = some k ∧ k ≠ "") := by
  have hstep : ∀ o : List (String × Trend),
      triggerTrendCacheStep o (Except.ok trends) = buildCache trends := by
    intro o
    simp [triggerTrendCacheStep, List.isEmpty_iff, hne]
  refine ⟨hstep old, fun o2 => (hstep o2).trans (hstep old).symm, ?_, ?_⟩
  · intro k t h
    rw [hstep old] at h
    exact dictGet_buildCache_sound trends k t h
  · intro k
    rw [hstep old]
    exact dictGet_buildCache_isSome trends k

/-- C9 witness: a stale single-entry cache under key `"z"` is wholly
replaced by the mapping of the one new trend with a truthy id (key
`"a"`); the trend whose id is the falsy `""` is dropped, and the old key
is gone. -/
theorem c9_witness :
    triggerTrendCacheStep
        [("z", ⟨some "z", "Old", "c", ⟨"cat", "sub", []⟩, "false"⟩)]
        (Except.ok [⟨some "", "NoId", "c", ⟨"cat", "sub", []⟩, "false"⟩,
                    ⟨some "a", "New", "c", ⟨"cat", "sub", []⟩, "false"⟩]) =
      [("a", ⟨some "a", "New", "c", ⟨"cat", "sub", []⟩, "false"⟩)]
    ∧ dictGet (triggerTrendCacheStep
        [("z", ⟨some "z", "Old", "c", ⟨"cat", "sub", []⟩, "false"⟩)]
        (Except.ok [⟨some "", "NoId", "c", ⟨"cat", "sub", []⟩, "false"⟩,
                    ⟨some "a", "New", "c", ⟨"cat", "sub", []⟩, "false"⟩])) "z" = none := by
  have h := c9_cache_wholesale_replacement
      [("z", ⟨some "z", "Old", "c", ⟨"cat", "sub", []⟩, "false"⟩)]
      [⟨some "", "NoId", "c", ⟨"cat", "sub", []⟩, "false"⟩,
       ⟨some "a", "New", "c", ⟨"cat", "sub", []⟩, "false"⟩] (by simp)
  exact ⟨h.1.trans rfl, by rw [h.1]; rfl⟩

/-- C10: when the guarded body raised (caught at main.py:129) or the trend
engine returned the empty list, `trigger_trend_generation` leaves the
in-memory cache exactly as it was: nothing is added or removed and every
previously cached trend remains retrievable under its id. -/
theorem c10_cache_unchanged (old : List (String × Trend)) (outcome : Except Unit (List Trend))
    (h : outcome = Except.error () ∨ outcome = Except.ok []) :
    triggerTrendCacheStep old outcome = old
    ∧ ∀ k, dictGet (triggerTrendCacheStep old outcome) k = dictGet old k := by
  have h1 : triggerTrendCacheStep old outcome = old := by
    rcases h with h | h <;> subst h <;> rfl
  exact ⟨h1, fun k => by rw [h1]⟩

/-- C10 witness: an empty regeneration leaves a one-entry cache intact. -/
theorem c10_witness :
    triggerTrendCacheStep [("z", ⟨some "z", "Old", "c", ⟨"cat", "sub", []⟩, "false"⟩)]
        (Except.ok []) =
      [("z", ⟨some "z", "Old", "c", ⟨"cat", "sub", []⟩, "false"⟩)] :=
  (c10_cache_unchanged [("z", ⟨some "z", "Old", "c", ⟨"cat", "sub", []⟩, "false"⟩)]
    (Except.ok []) (Or.inr rfl)).1

end Pseudonema
